import Mathlib

/-!
Verification development for the gardener irrigation station
(rustyeddy/gardener: gardener.go plus the main entry point).

The embedding below translates the station code into Lean: the observable
side effects of each callback (structured log calls, console prints and
publishes on the message bus) become an explicit action trace, the Go
float64 sensor values become exact rationals, fallible driver calls become
Except values, and the subscription table built by Init and Start becomes
an explicit association list from topic to handler.
-/

namespace Gardener

/-- Observable side effects of the station code: structured log calls
(slog.Info and slog.Error), console prints (fmt.Println and fmt.Printf),
and publishes on the message bus (Messenger.Pub). -/
inductive Action where
  | logInfo (msg : String)
  | logError (msg : String)
  | print (msg : String)
  | pub (topic : String) (payload : String)
deriving DecidableEq, Repr

/-- The publishes contained in an action trace, in order. -/
def pubsOf (actions : List Action) : List (String × String) :=
  actions.filterMap fun a =>
    match a with
    | Action.pub t p => some (t, p)
    | _ => none

/-- Floor of a rational, computed on the numerator and denominator; the
denominator is positive, so flooring division gives the floor. -/
def qfloor (q : ℚ) : ℤ := q.num.fdiv q.den

/-- The value scaled to hundredths and rounded to the nearest integer,
ties to even. This is the rounding step of the Go verb applied by the soil
callback, fmt.Sprintf with format %5.2f, which rounds the decimal
expansion of the argument to two places. -/
def round2 (v : ℚ) : ℤ :=
  if v * 100 - (qfloor (v * 100) : ℚ) < 1/2 then qfloor (v * 100)
  else if (1 : ℚ)/2 < v * 100 - (qfloor (v * 100) : ℚ) then qfloor (v * 100) + 1
  else if qfloor (v * 100) % 2 = 0 then qfloor (v * 100) else qfloor (v * 100) + 1

/-- Decimal digit as a character. -/
def digitChar (d : ℕ) : Char := Char.ofNat (48 + d)

/-- Exactly two decimal digits for the fractional part in hundredths. -/
def twoDigits (n : ℕ) : String :=
  String.mk [digitChar (n / 10 % 10), digitChar (n % 10)]

/-- Left padding with spaces to the minimum field width of five used by the
format verb %5.2f. -/
def pad5 (s : String) : String :=
  if 5 ≤ s.length then s
  else String.mk (List.replicate (5 - s.length) ' ') ++ s

/-- Embedding of fmt.Sprintf with format %5.2f: sign, integer part, a dot,
exactly two fractional digits, all padded on the left to at least five
characters. -/
def fmt52 (v : ℚ) : String :=
  pad5 ((if round2 v < 0 then "-" else "")
    ++ toString ((round2 v).natAbs / 100) ++ "."
    ++ twoDigits ((round2 v).natAbs % 100))

/-- One tick of the soil poller callback registered by InitSoil: on a read
error, log it and return without publishing; on success, log the reading
and publish the formatted value on topic d/soil. -/
def soilCb (read : Except String ℚ) : List Action :=
  match read with
  | Except.error _ => [Action.logError "soil sensor read failed"]
  | Except.ok value =>
      [Action.logInfo "soil moisture reading",
       Action.pub "d/soil" (fmt52 value)]

/-- The soil poller run over a list of tick outcomes: the ticker fires once
per list element and invokes the callback each time; the callback never
stops the ticker. -/
def soilRun : List (Except String ℚ) → List Action
  | [] => []
  | r :: rest => soilCb r ++ soilRun rest

/-- A reading of the BME280 environment sensor. -/
structure EnvReading where
  temperature : ℚ
  humidity : ℚ
  pressure : ℚ
deriving DecidableEq, Repr

/-- One tick of the env poller callback registered by initEnv: on a read
error, log it and return; on success, log the reading, then serialize it;
on a serialization error, log it and return; otherwise log the document
and publish it on topic d/env. The serializer resp.JSON lives in the
external sensor library and is passed in as a parameter. -/
def envCb (jsonOf : EnvReading → Except String String)
    (read : Except String EnvReading) : List Action :=
  match read with
  | Except.error _ => [Action.logError "env sensor read failed"]
  | Except.ok resp =>
      Action.logInfo "env sensor reading" ::
      match jsonOf resp with
      | Except.error _ => [Action.logError "env sensor marshal failed"]
      | Except.ok jbuf =>
          [Action.logInfo "env sensor json", Action.pub "d/env" jbuf]

/-- The env poller run over a list of tick outcomes. -/
def envRun (jsonOf : EnvReading → Except String String) :
    List (Except String EnvReading) → List Action
  | [] => []
  | r :: rest => envCb jsonOf r ++ envRun jsonOf rest

/-- Event types delivered by the button driver; the handlers in
initButtons switch on the rising edge case only. -/
inductive EventType where
  | risingEdge
  | otherEvent
deriving DecidableEq, Repr

/-- A device event as delivered to a registered event handler. -/
structure DeviceEvent where
  etype : EventType
deriving DecidableEq, Repr

/-- The event handler registered on the on button by initButtons: on a
rising edge, log the press and publish the literal payload on to topic
d/on; any other event type is ignored. -/
def onButtonHandler (evt : DeviceEvent) : List Action :=
  match evt.etype with
  | EventType.risingEdge =>
      [Action.logInfo "button pressed on", Action.pub "d/on" "on"]
  | _ => []

/-- The event handler registered on the off button by initButtons: on a
rising edge, log the press and publish the literal payload off to topic
d/off; any other event type is ignored. -/
def offButtonHandler (evt : DeviceEvent) : List Action :=
  match evt.etype with
  | EventType.risingEdge =>
      [Action.logInfo "button pressed off", Action.pub "d/off" "off"]
  | _ => []

/-- A sequence of event notifications handled one by one, in delivery
order, each invocation independent of the others. -/
def dispatchEvents (handler : DeviceEvent → List Action) :
    List DeviceEvent → List Action
  | [] => []
  | e :: rest => handler e ++ dispatchEvents handler rest

/-- The message handlers that the station code ever passes to
Messenger.Sub: the relay handler of the pump device, and the MsgHandler
method of Gardener. -/
inductive Handler where
  | pumpHandleMsg
  | msgHandler
deriving DecidableEq, Repr

/-- The subscription registered during Init: initPump subscribes the pump
relay handler to topic c/pump. initDisplay registers no subscription; it
only creates the display, clears it and adds it to the device manager. -/
def initSubs : List (String × Handler) := [("c/pump", Handler.pumpHandleMsg)]

/-- The topic list subscribed in Start after a successful connect. -/
def startTopics : List String := ["soil", "env", "on", "off", "pump", "display"]

/-- The subscriptions registered by Start, all to MsgHandler. -/
def startSubs : List (String × Handler) :=
  startTopics.map fun t => (t, Handler.msgHandler)

/-- Every subscription in place after Init and a successful Start. -/
def allSubs : List (String × Handler) := initSubs ++ startSubs

/-- The handlers the bus invokes for a message on a topic: those whose
subscription names that topic, in registration order. -/
def handlersFor (topic : String) : List Handler :=
  (allSubs.filter fun s => s.1 == topic).map fun s => s.2

/-- Delivery of one inbound message: each handler subscribed to the topic
is invoked with the payload exactly as received. -/
def deliver (topic : String) (payload : String) : List (Handler × String) :=
  (handlersFor topic).map fun h => (h, payload)

/-- An inbound message as seen by MsgHandler. -/
structure Msg where
  topic : String
  data : String
deriving DecidableEq, Repr

/-- What one MsgHandler invocation does: its action trace, the actuator
handlers it invokes, and the error value it returns to the bus. -/
structure HandlerResult where
  actions : List Action
  actuations : List Handler
  err : Option String
deriving DecidableEq, Repr

/-- The topics with a dedicated case in the switch of MsgHandler. -/
def routedTopics : List String := ["soil", "env", "on", "off"]

/-- Embedding of the MsgHandler method: log the inbound message, switch on
the topic printing a line for the known cases and logging an unknown topic
diagnostic in the default case, print the message, and return nil. No
branch invokes an actuator handler. -/
def MsgHandler (msg : Msg) : HandlerResult :=
  let mid : List Action :=
    if msg.topic = "soil" then [Action.print "Got soil: "]
    else if msg.topic = "env" then [Action.print "Got env: "]
    else if msg.topic = "on" then [Action.print "Got a button"]
    else if msg.topic = "off" then [Action.print "Got a button"]
    else [Action.logError ("unknown msg type " ++ msg.topic)]
  { actions := Action.logInfo ("MQTT [I] " ++ msg.topic) ::
      mid ++ [Action.print ("msg: " ++ msg.topic ++ " " ++ msg.data)],
    actuations := [],
    err := none }

/-- Outcome of the Start method. -/
structure StartResult where
  errLogged : Bool
  subs : List (String × Handler)
  emulatorStarted : Bool
deriving DecidableEq, Repr

/-- Embedding of the Start method: connect to the broker; on error, log it
and return at once, registering nothing and starting nothing; on success,
subscribe MsgHandler to each topic of startTopics and, when mock mode is
on, start the emulator on the soil device. -/
def Start (connectErr : Option String) (mock : Bool) : StartResult :=
  match connectErr with
  | some _ => { errLogged := true, subs := [], emulatorStarted := false }
  | none => { errLogged := false, subs := startSubs, emulatorStarted := mock }

/-- A device manager instance, identified by the allocation that created
it so that distinct instances are distinguishable. -/
structure DeviceManager where
  id : ℕ
deriving DecidableEq, Repr

/-- The Gardener state relevant to GetDeviceManager: the possibly nil
DeviceManager field, plus a fresh allocation counter standing for calls to
station.NewDeviceManager. -/
structure GardenerState where
  deviceManager : Option DeviceManager
  nextId : ℕ
deriving DecidableEq, Repr

/-- Embedding of the GetDeviceManager method: when the field is nil,
allocate a new manager, store it in the field and return it; otherwise
return the stored manager unchanged. -/
def GetDeviceManager (g : GardenerState) : DeviceManager × GardenerState :=
  match g.deviceManager with
  | some dm => (dm, g)
  | none =>
      ({ id := g.nextId },
       { deviceManager := some { id := g.nextId }, nextId := g.nextId + 1 })

/-- The fixed per cycle increment applied by the emulator, 0.02 in the
source, as an exact rational. -/
def emulatorDelta : ℚ := 2/100

/-- One tick of the emulator loop body: read the mock pin; on error, log
it and leave the value unchanged; on success, add the increment and write
the value back. -/
def emulatorTick : Bool → ℚ → List Action × ℚ
  | true, v => ([], v + emulatorDelta)
  | false, v => ([Action.logError "emulator failure"], v)

/-- The synthetic pin value after the emulator loop has processed the
given sequence of tick outcomes. -/
def emulatorRunTicks : List Bool → ℚ → ℚ
  | [], v => v
  | ok :: rest, v => emulatorRunTicks rest (emulatorTick ok v).2

/-- The concurrently running activities of the station, with mock mode on:
the two sensor poller tickers, the two button dispatchers, the emulator
goroutine, and the main goroutine blocked on the Done channel. -/
inductive Activity where
  | soilPoller
  | envPoller
  | onDispatcher
  | offDispatcher
  | emulatorLoop
  | mainWait
deriving DecidableEq, Repr

/-- The activities running after Init, Start and main have set up, as a
function of mock mode. -/
def runningActivities (mock : Bool) : List Activity :=
  [Activity.soilPoller, Activity.envPoller,
   Activity.onDispatcher, Activity.offDispatcher]
    ++ (if mock then [Activity.emulatorLoop] else []) ++ [Activity.mainWait]

/-- Whether the code of an activity contains a receive on the Done
channel: the emulator select has one, main blocks on one, and the poller
callbacks and button handlers contain none. -/
def receivesOnDone : Activity → Bool
  | Activity.emulatorLoop => true
  | Activity.mainWait => true
  | _ => false

/-- The number of sends the Stop method performs on the Done channel: its
body is the single unbuffered send of one value. An unbuffered channel
send hands the value to exactly one receiver, so one send can wake at most
one of the activities that receive on Done. -/
def stopSendCount : ℕ := 1

/-- A soil poller tick evaluated after Stop has run: the callback closure
registered by InitSoil captures no stop flag and consults no shutdown
state, so its behavior does not depend on whether Stop was called. -/
def soilTickAfterStop (_stopped : Bool) (read : Except String ℚ) : List Action :=
  soilCb read

lemma pubsOf_append (a b : List Action) :
    pubsOf (a ++ b) = pubsOf a ++ pubsOf b := by
  rw [pubsOf, pubsOf, pubsOf, List.filterMap_append]

lemma qfloor_42 : qfloor (42 : ℚ) = 42 := by
  have h1 : ((42 : ℚ)).num = 42 := by norm_num
  have h2 : ((42 : ℚ)).den = 1 := by norm_num
  rw [qfloor, h1, h2]
  decide

lemma round2_021 : round2 (21/50 : ℚ) = 42 := by
  have hx : (21/50 : ℚ) * 100 = 42 := by norm_num
  rw [round2, hx, qfloor_42]
  norm_num

lemma fmt52_021 : fmt52 (21/50 : ℚ) = " 0.42" := by
  rw [fmt52, round2_021]
  decide

lemma pad5_length (s : String) : 5 ≤ (pad5 s).length := by
  rw [pad5]
  split
  · assumption
  · rename_i h
    have hr : (String.mk (List.replicate (5 - s.length) ' ')).length
        = 5 - s.length := by
      show (List.replicate (5 - s.length) ' ').length = 5 - s.length
      simp
    rw [String.length_append, hr]
    omega

lemma fmt52_length (v : ℚ) : 5 ≤ (fmt52 v).length := by
  rw [fmt52]
  exact pad5_length _

/-- C2: on every soil poller tick whose sensor read succeeds, the poller
publishes on topic d/soil the value formatted by the verb %5.2f (exactly
two fractional digits, left padded to a field of at least five
characters), and for the read value 0.42 the payload is exactly the byte
string " 0.42" on every tick. -/
theorem c2_soil_publish_format : ∀ (v : ℚ) (n : ℕ),
    soilCb (Except.ok v) =
      [Action.logInfo "soil moisture reading", Action.pub "d/soil" (fmt52 v)]
    ∧ 5 ≤ (fmt52 v).length
    ∧ pubsOf (soilRun (List.replicate n (Except.ok (21/50)))) =
        List.replicate n ("d/soil", " 0.42") := by
  intro v n
  refine ⟨rfl, fmt52_length v, ?_⟩
  induction n with
  | zero => rfl
  | succ k ih =>
      simp only [List.replicate_succ, soilRun, pubsOf_append, ih]
      rw [show pubsOf (soilCb (Except.ok (21/50 : ℚ)))
            = [("d/soil", fmt52 (21/50))] from rfl, fmt52_021]
      rfl

/-- C3: a message on topic c/pump invokes exactly the pump relay handler,
with the payload passed through unmodified. -/
theorem c3_pump_verbatim : ∀ payload : String,
    deliver "c/pump" payload = [(Handler.pumpHandleMsg, payload)] := by
  intro p
  have h : handlersFor "c/pump" = [Handler.pumpHandleMsg] := by decide
  rw [deliver, h]
  rfl

/-- C4: for a message whose topic has no case in the routing switch,
MsgHandler logs an unknown topic diagnostic, invokes zero actuator
handlers, and returns no error to the bus. -/
theorem c4_unknown_topic (msg : Msg) (h : msg.topic ∉ routedTopics) :
    MsgHandler msg =
      { actions := [Action.logInfo ("MQTT [I] " ++ msg.topic),
                    Action.logError ("unknown msg type " ++ msg.topic),
                    Action.print ("msg: " ++ msg.topic ++ " " ++ msg.data)],
        actuations := [], err := none } := by
  simp only [routedTopics, List.mem_cons, List.not_mem_nil, or_false,
    not_or] at h
  obtain ⟨h1, h2, h3, h4⟩ := h
  simp only [MsgHandler, if_neg h1, if_neg h2, if_neg h3, if_neg h4]
  rfl

/-- Witness for C4 at the concrete unmapped topic c/bogus. -/
theorem c4_unknown_topic_witness :
    ("c/bogus" : String) ∉ routedTopics
    ∧ MsgHandler { topic := "c/bogus", data := "x" } =
      { actions := [Action.logInfo ("MQTT [I] " ++ "c/bogus"),
                    Action.logError ("unknown msg type " ++ "c/bogus"),
                    Action.print ("msg: " ++ "c/bogus" ++ " " ++ "x")],
        actuations := [], err := none } :=
  ⟨by decide, c4_unknown_topic { topic := "c/bogus", data := "x" } (by decide)⟩

lemma soilRun_allFail (n : ℕ) (e : String) :
    soilRun (List.replicate n (Except.error e)) =
      List.replicate n (Action.logError "soil sensor read failed") := by
  induction n with
  | zero => rfl
  | succ k ih =>
      simp only [List.replicate_succ, soilRun, ih]
      rfl

lemma envRun_allFail (n : ℕ) (e : String) :
    envRun (fun _ => Except.error e) (List.replicate n (Except.error e)) =
      List.replicate n (Action.logError "env sensor read failed") := by
  induction n with
  | zero => rfl
  | succ k ih =>
      simp only [List.replicate_succ, envRun, ih]
      rfl

lemma envRun_marshalFail (n : ℕ) (e : String) (r : EnvReading) :
    pubsOf (envRun (fun _ => Except.error e)
      (List.replicate n (Except.ok r))) = [] := by
  induction n with
  | zero => rfl
  | succ k ih =>
      simp only [List.replicate_succ, envRun, pubsOf_append, ih]
      rfl

/-- C5: a failing read, or for the env sensor a failing serialization, is
logged and skips that cycle without a publish and without stopping the
schedule: over n intervals of failures the soil and env pollers fire n
times, log n failures, and publish nothing. -/
theorem c5_failure_skips_cycle : ∀ (n : ℕ) (e : String) (r : EnvReading),
    soilRun (List.replicate n (Except.error e)) =
      List.replicate n (Action.logError "soil sensor read failed")
    ∧ envRun (fun _ => Except.error e) (List.replicate n (Except.error e)) =
      List.replicate n (Action.logError "env sensor read failed")
    ∧ envCb (fun _ => Except.error e) (Except.ok r) =
      [Action.logInfo "env sensor reading",
       Action.logError "env sensor marshal failed"]
    ∧ pubsOf (envRun (fun _ => Except.error e)
        (List.replicate n (Except.ok r))) = [] := by
  intro n e r
  exact ⟨soilRun_allFail n e, envRun_allFail n e, rfl, envRun_marshalFail n e r⟩

/-- C6: n rising edge notifications on a button produce exactly n
published messages, one per edge in delivery order, with the literal
payload of that button: on to d/on for the on button, off to d/off for
the off button. -/
theorem c6_one_message_per_edge : ∀ n : ℕ,
    pubsOf (dispatchEvents onButtonHandler
        (List.replicate n { etype := EventType.risingEdge })) =
      List.replicate n ("d/on", "on")
    ∧ pubsOf (dispatchEvents offButtonHandler
        (List.replicate n { etype := EventType.risingEdge })) =
      List.replicate n ("d/off", "off") := by
  intro n
  constructor
  · induction n with
    | zero => rfl
    | succ k ih =>
        simp only [List.replicate_succ, dispatchEvents, pubsOf_append, ih]
        rfl
  · induction n with
    | zero => rfl
    | succ k ih =>
        simp only [List.replicate_succ, dispatchEvents, pubsOf_append, ih]
        rfl

/-- C7: when the broker connection fails, Start logs the failure and
returns at once with no subscriptions registered and the emulator not
started; the subscriptions are registered exactly when the connection
succeeds. -/
theorem c7_connect_failure_aborts : ∀ (e : String) (mock : Bool),
    Start (some e) mock =
      { errLogged := true, subs := [], emulatorStarted := false }
    ∧ (Start none mock).subs = startSubs
    ∧ (Start none mock).errLogged = false := by
  intro e mock
  exact ⟨rfl, rfl, rfl⟩

/-- C8: no subscription for topic c/lcd exists after Init and a
successful Start, so a message on c/lcd reaches no handler at all; in
particular its payload is never forwarded to the display. -/
theorem c8_lcd_never_routed :
    handlersFor "c/lcd" = []
    ∧ ∀ payload : String, deliver "c/lcd" payload = [] := by
  have h : handlersFor "c/lcd" = [] := by decide
  refine ⟨h, fun p => ?_⟩
  rw [deliver, h]
  rfl

/-- C9: with mock mode on, k emulator ticks on each of which the
synthetic read succeeds move the underlying value from v0 to exactly
v0 plus k times the fixed increment 0.02. -/
theorem c9_emulator_linear_drift : ∀ (v0 : ℚ) (k : ℕ),
    emulatorRunTicks (List.replicate k true) v0 = v0 + k * emulatorDelta := by
  intro v0 k
  induction k generalizing v0 with
  | zero => simp [emulatorRunTicks]
  | succ n ih =>
      rw [List.replicate_succ]
      have h : emulatorRunTicks (true :: List.replicate n true) v0
          = emulatorRunTicks (List.replicate n true) (v0 + emulatorDelta) := rfl
      rw [h, ih]
      push_cast
      ring

/-- C10: GetDeviceManager always yields a manager that is stored in the
state, calling it again on the resulting state returns the very same
manager and changes nothing, and when a manager is already set the call
returns it and leaves the state untouched. -/
theorem c10_get_device_manager_idempotent : ∀ g : GardenerState,
    (GetDeviceManager g).2.deviceManager = some (GetDeviceManager g).1
    ∧ GetDeviceManager (GetDeviceManager g).2 =
        ((GetDeviceManager g).1, (GetDeviceManager g).2)
    ∧ ∀ dm : DeviceManager,
        g.deviceManager = some dm → GetDeviceManager g = (dm, g) := by
  intro g
  obtain ⟨dmo, k⟩ := g
  cases dmo with
  | none =>
      refine ⟨rfl, rfl, ?_⟩
      intro dm hdm
      exact Option.noConfusion hdm
  | some dm0 =>
      refine ⟨rfl, rfl, ?_⟩
      intro dm hdm
      injection hdm with h
      subst h
      rfl

/-- Witness for C10 at a concrete state that already holds a manager. -/
theorem c10_get_device_manager_witness :
    GetDeviceManager { deviceManager := some { id := 7 }, nextId := 3 } =
      ({ id := 7 }, { deviceManager := some { id := 7 }, nextId := 3 }) :=
  (c10_get_device_manager_idempotent
    { deviceManager := some { id := 7 }, nextId := 3 }).2.2 { id := 7 } rfl

/-- C1: the shutdown signal is not a broadcast in the code. Stop performs
a single send on the unbuffered Done channel, which at most one of the
two activities that receive on Done (the emulator loop and main) can
consume; neither poller and neither button dispatcher receives on Done at
all, and a soil tick evaluated after Stop still publishes. -/
theorem c1_stop_signal_not_broadcast :
    (runningActivities true).filter (fun a => !(receivesOnDone a)) =
      [Activity.soilPoller, Activity.envPoller,
       Activity.onDispatcher, Activity.offDispatcher]
    ∧ stopSendCount = 1
    ∧ ((runningActivities true).filter receivesOnDone).length = 2
    ∧ pubsOf (soilTickAfterStop true (Except.ok (21/50))) =
        [("d/soil", " 0.42")] := by
  refine ⟨by decide, rfl, by decide, ?_⟩
  show pubsOf (soilCb (Except.ok (21/50 : ℚ))) = [("d/soil", " 0.42")]
  rw [show pubsOf (soilCb (Except.ok (21/50 : ℚ)))
        = [("d/soil", fmt52 (21/50))] from rfl, fmt52_021]

end Gardener
